import Mathlib

/-!
Shallow embedding of the `link-conditioner` crate (`src/lib.rs`): a wrapper
around a UDP socket that simulates latency, jitter and packet loss by holding
received packets in a time-ordered delay queue and serving reads out of it.

Time is modelled by natural numbers (instants and durations, e.g. in
nanoseconds); bytes and socket addresses are opaque natural numbers; a
caller-supplied buffer is a list of bytes whose length is the buffer's
capacity; the underlying transport's read outcome, the current instant and the
outcome of `Mutex::try_lock` are per-call inputs of the embedded functions,
which return the call result together with the updated queue and buffer.
-/

namespace LinkConditioner

/-- Instants are natural numbers; `Instant::add(Duration)` is `Nat` addition. -/
abbrev Instant := Nat

/-- Modelled from the spec: the `time_queue` module is declared in `src/lib.rs`
(`pub mod time_queue;`) but its source file is missing, so `TimeQueue` follows
the spec's words (§3, §4.1): a multiset of `(release_instant, item)` pairs,
kept here in insertion order. -/
structure TimeQueue (α : Type) where
  items : List (Instant × α)
deriving DecidableEq

namespace TimeQueue

/-- Modelled from the spec: `TimeQueue::new()` creates the queue empty. -/
def new {α : Type} : TimeQueue α := ⟨[]⟩

/-- Modelled from the spec (§4.1): `add_item` inserts unconditionally and never
fails; there is no capacity bound. -/
def add_item {α : Type} (q : TimeQueue α) (instant : Instant) (item : α) :
    TimeQueue α :=
  ⟨q.items ++ [(instant, item)]⟩

/-- Modelled from the spec (§4.1): `has_item` is the simplified variant that
reports only whether the queue is non-empty — the call sites in `src/lib.rs`
pass it no time, so it cannot gate on dueness. -/
def has_item {α : Type} (q : TimeQueue α) : Bool :=
  !q.items.isEmpty

/-- Select the earliest-release element of a list: the first element whose
release instant is minimal (ties go to the earlier-inserted element), returned
together with the remaining elements in their original order. -/
def popMin {α : Type} : List (Instant × α) →
    Option ((Instant × α) × List (Instant × α))
  | [] => none
  | (t, x) :: rest =>
    match popMin rest with
    | none => some ((t, x), [])
    | some ((u, y), rest') =>
      if t ≤ u then some ((t, x), rest) else some ((u, y), (t, x) :: rest')

/-- Modelled from the spec (§3, §4.1): `pop_item` removes and returns the item
with the smallest `release_instant` (`None` if empty); ties are broken by
insertion order; the call sites in `src/lib.rs` pass no time, so the pop does
not gate on the current time. -/
def pop_item {α : Type} (q : TimeQueue α) : Option (α × TimeQueue α) :=
  match popMin q.items with
  | none => none
  | some ((_, x), rest) => some (x, ⟨rest⟩)

/-- Fuel-indexed repeated popping; with fuel at least the queue's size it
drains the queue completely. -/
def drainAux {α : Type} : Nat → TimeQueue α → List (Instant × α)
  | 0, _ => []
  | n + 1, q =>
    match popMin q.items with
    | none => []
    | some ((t, x), rest) => (t, x) :: drainAux n ⟨rest⟩

/-- The sequence of `(release_instant, item)` pairs obtained by popping the
queue repeatedly until it is empty. -/
def drain {α : Type} (q : TimeQueue α) : List (Instant × α) :=
  drainAux q.items.length q

/-- Build a queue by `add_item`-inserting a list of pairs, in order, into an
empty queue. -/
def ofInsertions {α : Type} (l : List (Instant × α)) : TimeQueue α :=
  l.foldl (fun q p => q.add_item p.1 p.2) new

end TimeQueue

/-- Error kinds relevant to the read path; `wouldBlock` is
`std::io::ErrorKind::WouldBlock`, the others stand for arbitrary transport
failures. -/
inductive IOErrorKind where
  | wouldBlock
  | connectionReset
  | otherError
deriving DecidableEq

/-- The `RecvFrom` struct of `src/lib.rs` (lines 23-27): a sender address and
the raw bytes stored for delayed delivery. -/
structure RecvFrom where
  addr : Nat
  data : List Nat
deriving DecidableEq

/-- A datagram sitting in the underlying transport: its sender address and its
byte payload. -/
structure Datagram where
  addr : Nat
  bytes : List Nat
deriving DecidableEq

/-- The `ConditionerConfig` struct of `src/lib.rs` (lines 29-33): `latency`
and `jitter` are durations, `packet_loss` a fraction. -/
structure ConditionerConfig where
  latency : Nat
  jitter : Nat
  packet_loss : ℚ
deriving DecidableEq

/-- `ConditionerConfig::default()` (lines 35-43): zero latency, zero jitter,
zero packet loss. -/
def ConditionerConfig.default : ConditionerConfig :=
  { latency := 0, jitter := 0, packet_loss := 0 }

/-- Byte-level effect of `UdpSocket::recv_from(buf)` on the caller's buffer:
the datagram's bytes are written at the start, truncated at the buffer's
capacity; bytes beyond the written region keep their previous contents. -/
def writeInto (buf bytes : List Nat) : List Nat :=
  bytes.take buf.length ++ buf.drop (min bytes.length buf.length)

/-- `UdpSocket::recv_from` semantics (the external transport): on success the
datagram is written into the buffer and the call reports the number of bytes
received into the buffer together with the sender's address; on failure the
transport's error is returned and the buffer is untouched. The transport's
outcome (`tread`) is an input of the model. -/
def udpRecvFrom (tread : Except IOErrorKind Datagram) (buf : List Nat) :
    Except IOErrorKind (Nat × Nat) × List Nat :=
  match tread with
  | .ok d => (.ok (min d.bytes.length buf.length, d.addr), writeInto buf d.bytes)
  | .error e => (.error e, buf)

/-- The release instant the code computes for an accepted packet
(`src/lib.rs` lines 86 and 126): `Instant::now().add(config.latency)` — the
current time plus the configured latency, with no jitter term. -/
def release_instant_code (config : ConditionerConfig) (now : Instant) :
    Instant :=
  now + config.latency

/-- Modelled from the spec (§4.3), for comparison with `release_instant_code`:
`base = now + latency`; a freshly drawn `delta ∈ [0, jitter]` is added or
subtracted according to a drawn sign, clamping to `base` when the subtraction
would underflow the time domain. The draws `delta` and `sign` are explicit
inputs. -/
def compute_release_instant_spec (config : ConditionerConfig) (now : Instant)
    (delta : Nat) (sign : Bool) : Instant :=
  let base := now + config.latency
  if sign then base + delta
  else if delta ≤ base then base - delta else base

/-- The delivery loop of `recv`/`recv_from` (`src/lib.rs` lines 97-103 and
138-144): iterate over the popped item's data with its index; while
`buf.len() > index` holds, overwrite `buf[index]` with the data byte;
otherwise return early with reported length `buf.len()`. The result is the
final buffer plus `some len` for an early return, `none` when the loop ran to
completion (the caller then reports `item.data.len()`). -/
def copy_out : List Nat → Nat → List Nat → List Nat × Option Nat
  | [], _, buf => (buf, none)
  | b :: rest, index, buf =>
    if buf.length > index then copy_out rest (index + 1) (buf.set index b)
    else (buf, some buf.length)

/-- `UdpConditioner::recv` in Conditioned mode (`src/lib.rs` lines 77-115).
Per-call inputs: the lock attempt's outcome (`lockOk` is the success of
`queue.try_lock()`), the transport read's outcome `tread`, and the current
instant `now`. Returns the io result plus the queue and buffer after the
call. Note the queue check sits inside the successful-transport-read branch:
a failed transport read falls through to `WouldBlock` without consulting the
queue. -/
def recv (config : ConditionerConfig) (lockOk : Bool)
    (tread : Except IOErrorKind Datagram) (now : Instant)
    (queue : TimeQueue RecvFrom) (buf : List Nat) :
    Except IOErrorKind Nat × TimeQueue RecvFrom × List Nat :=
  if lockOk then
    match tread with
    | .ok d =>
      let written := writeInto buf d.bytes
      let instant := release_instant_code config now
      let queue1 := queue.add_item instant { addr := d.addr, data := written }
      if queue1.has_item then
        match queue1.pop_item with
        | some (item, queue2) =>
          match copy_out item.data 0 written with
          | (buf2, some len) => (.ok len, queue2, buf2)
          | (buf2, none) => (.ok item.data.length, queue2, buf2)
        | none => (.error .wouldBlock, queue1, written)
      else (.error .wouldBlock, queue1, written)
    | .error _ => (.error .wouldBlock, queue, buf)
  else (.error .wouldBlock, queue, buf)

/-- `UdpConditioner::recv_from` in Conditioned mode (`src/lib.rs` lines
117-155). Same per-call inputs as `recv`; unlike `recv`, the queue check sits
outside the transport-read branch, so a failed transport read still drains
the queue. -/
def recv_from (config : ConditionerConfig) (lockOk : Bool)
    (tread : Except IOErrorKind Datagram) (now : Instant)
    (queue : TimeQueue RecvFrom) (buf : List Nat) :
    Except IOErrorKind (Nat × Nat) × TimeQueue RecvFrom × List Nat :=
  if lockOk then
    let (queue1, buf1) :=
      match tread with
      | .ok d =>
        let written := writeInto buf d.bytes
        let instant := release_instant_code config now
        (queue.add_item instant { addr := d.addr, data := written }, written)
      | .error _ => (queue, buf)
    if queue1.has_item then
      match queue1.pop_item with
      | some (item, queue2) =>
        match copy_out item.data 0 buf1 with
        | (buf2, some len) => (.ok (len, item.addr), queue2, buf2)
        | (buf2, none) => (.ok (item.data.length, item.addr), queue2, buf2)
      | none => (.error .wouldBlock, queue1, buf1)
    else (.error .wouldBlock, queue1, buf1)
  else (.error .wouldBlock, queue, buf)

/-- `UdpConditioner::peek_from` in Conditioned mode (`src/lib.rs` lines
157-166): the match arm binds the socket, queue and config but the body is
just `socket.peek_from(buf)` — a direct transport peek. `tpeek` is the
transport peek's outcome, with the same buffer semantics as a read. -/
def peek_from (config : ConditionerConfig)
    (tpeek : Except IOErrorKind Datagram) (queue : TimeQueue RecvFrom)
    (buf : List Nat) :
    Except IOErrorKind (Nat × Nat) × TimeQueue RecvFrom × List Nat :=
  ((udpRecvFrom tpeek buf).1, queue, (udpRecvFrom tpeek buf).2)

/-! ## Helper lemmas about the delay queue -/

theorem ofInsertions_items {α : Type} (l : List (Instant × α)) :
    (TimeQueue.ofInsertions l).items = l := by
  suffices h : ∀ (acc : List (Instant × α)),
      (l.foldl (fun (q : TimeQueue α) p => q.add_item p.1 p.2)
        (TimeQueue.mk acc)).items = acc ++ l by
    simpa using h []
  induction l with
  | nil => intro acc; simp [List.foldl]
  | cons p tl ih =>
    intro acc
    simpa [List.foldl, TimeQueue.add_item] using ih (acc ++ [p])

theorem ofInsertions_eq {α : Type} (l : List (Instant × α)) :
    TimeQueue.ofInsertions l = (⟨l⟩ : TimeQueue α) :=
  congrArg TimeQueue.mk (ofInsertions_items l)

theorem popMin_cons {α : Type} (t : Instant) (x : α)
    (rest : List (Instant × α)) :
    TimeQueue.popMin ((t, x) :: rest) =
      match TimeQueue.popMin rest with
      | none => some ((t, x), [])
      | some ((u, y), rest') =>
        if t ≤ u then some ((t, x), rest) else some ((u, y), (t, x) :: rest') :=
  rfl

theorem popMin_cons_isSome {α : Type} (p : Instant × α)
    (l : List (Instant × α)) : (TimeQueue.popMin (p :: l)).isSome := by
  obtain ⟨t, x⟩ := p
  cases h : TimeQueue.popMin l with
  | none => simp [TimeQueue.popMin, h]
  | some pr =>
    obtain ⟨⟨u, y⟩, rest'⟩ := pr
    by_cases htu : t ≤ u <;> simp [TimeQueue.popMin, h, htu]

/-- On a list sorted by release instant, the earliest-release selection is the
head, and the remainder is the tail. -/
theorem popMin_sorted {α : Type} (p : Instant × α) (l : List (Instant × α))
    (h : List.Pairwise (fun a b : Instant × α => a.1 ≤ b.1) (p :: l)) :
    TimeQueue.popMin (p :: l) = some (p, l) := by
  obtain ⟨t, x⟩ := p
  cases l with
  | nil => simp [TimeQueue.popMin]
  | cons q tl =>
    obtain ⟨u, y⟩ := q
    rw [List.pairwise_cons] at h
    have htu : t ≤ u := h.1 (u, y) (by simp)
    have ih := popMin_sorted (u, y) tl h.2
    rw [popMin_cons, ih]
    simp [htu]

/-- Draining a queue whose contents are sorted by release instant returns
exactly those contents, in order. -/
theorem drain_sorted {α : Type} (l : List (Instant × α))
    (h : List.Pairwise (fun a b : Instant × α => a.1 ≤ b.1) l) :
    TimeQueue.drain (⟨l⟩ : TimeQueue α) = l := by
  induction l with
  | nil => rfl
  | cons p tl ih =>
    have hpop := popMin_sorted p tl h
    have htl := (List.pairwise_cons.mp h).2
    obtain ⟨t, x⟩ := p
    simpa [TimeQueue.drain, TimeQueue.drainAux, hpop] using ih htl

theorem popMin_append_singleton_isSome {α : Type} (l : List (Instant × α))
    (p : Instant × α) : (TimeQueue.popMin (l ++ [p])).isSome := by
  cases l with
  | nil => simpa using popMin_cons_isSome p []
  | cons q tl => simpa using popMin_cons_isSome q (tl ++ [p])

theorem pop_item_add_isSome {α : Type} (q : TimeQueue α) (t : Instant)
    (x : α) : ((q.add_item t x).pop_item).isSome := by
  obtain ⟨⟨⟨u, y⟩, rest⟩, hpr⟩ := Option.isSome_iff_exists.mp
    (popMin_append_singleton_isSome q.items (t, x))
  simp [TimeQueue.pop_item, TimeQueue.add_item, hpr]

theorem has_item_of_pop_item_some {α : Type} (q : TimeQueue α)
    (x : α × TimeQueue α) (h : q.pop_item = some x) : q.has_item = true := by
  cases hi : q.items with
  | nil => simp [TimeQueue.pop_item, hi, TimeQueue.popMin] at h
  | cons p l => simp [TimeQueue.has_item, hi]

theorem pop_item_isSome_of_has_item {α : Type} (q : TimeQueue α)
    (h : q.has_item = true) : q.pop_item.isSome := by
  cases hi : q.items with
  | nil => simp [TimeQueue.has_item, hi] at h
  | cons p l =>
    obtain ⟨⟨⟨u, y⟩, rest⟩, hpr⟩ := Option.isSome_iff_exists.mp
      (popMin_cons_isSome p l)
    simp [TimeQueue.pop_item, hi, hpr]

/-! ## Helper lemmas about the conditioned read path -/

theorem recv_lock_fail (cfg : ConditionerConfig)
    (tread : Except IOErrorKind Datagram) (now : Instant)
    (q : TimeQueue RecvFrom) (buf : List Nat) :
    recv cfg false tread now q buf = (.error .wouldBlock, q, buf) := rfl

theorem recv_transport_fail (cfg : ConditionerConfig) (e : IOErrorKind)
    (now : Instant) (q : TimeQueue RecvFrom) (buf : List Nat) :
    recv cfg true (.error e) now q buf = (.error .wouldBlock, q, buf) := rfl

theorem recv_from_lock_fail (cfg : ConditionerConfig)
    (tread : Except IOErrorKind Datagram) (now : Instant)
    (q : TimeQueue RecvFrom) (buf : List Nat) :
    recv_from cfg false tread now q buf = (.error .wouldBlock, q, buf) := rfl

theorem recv_from_transport_fail_empty (cfg : ConditionerConfig)
    (e : IOErrorKind) (now : Instant) (q : TimeQueue RecvFrom)
    (buf : List Nat) (h : q.has_item = false) :
    recv_from cfg true (.error e) now q buf = (.error .wouldBlock, q, buf) := by
  simp [recv_from, h]

theorem recv_from_transport_fail_pop (cfg : ConditionerConfig)
    (e : IOErrorKind) (now : Instant) (q : TimeQueue RecvFrom)
    (buf : List Nat) (item : RecvFrom) (q2 : TimeQueue RecvFrom)
    (hpop : q.pop_item = some (item, q2)) :
    ∃ len buf2, recv_from cfg true (.error e) now q buf
      = (.ok (len, item.addr), q2, buf2) := by
  have hh := has_item_of_pop_item_some q (item, q2) hpop
  rcases hco : copy_out item.data 0 buf with ⟨buf2, early⟩
  cases early with
  | some len => exact ⟨len, buf2, by simp [recv_from, hh, hpop, hco]⟩
  | none => exact ⟨item.data.length, buf2, by simp [recv_from, hh, hpop, hco]⟩

theorem recv_tread_ok (cfg : ConditionerConfig) (now : Instant)
    (q : TimeQueue RecvFrom) (buf : List Nat) (d : Datagram) :
    ∃ len q2 buf2, recv cfg true (.ok d) now q buf = (.ok len, q2, buf2) := by
  obtain ⟨⟨item, q2⟩, hpop⟩ := Option.isSome_iff_exists.mp
    (pop_item_add_isSome q (release_instant_code cfg now)
      { addr := d.addr, data := writeInto buf d.bytes })
  have hh := has_item_of_pop_item_some _ _ hpop
  rcases hco : copy_out item.data 0 (writeInto buf d.bytes) with ⟨buf2, early⟩
  cases early with
  | some len => exact ⟨len, q2, buf2, by simp [recv, hh, hpop, hco]⟩
  | none => exact ⟨item.data.length, q2, buf2, by simp [recv, hh, hpop, hco]⟩

theorem recv_from_tread_ok (cfg : ConditionerConfig) (now : Instant)
    (q : TimeQueue RecvFrom) (buf : List Nat) (d : Datagram) :
    ∃ r q2 buf2, recv_from cfg true (.ok d) now q buf = (.ok r, q2, buf2) := by
  obtain ⟨⟨item, q2⟩, hpop⟩ := Option.isSome_iff_exists.mp
    (pop_item_add_isSome q (release_instant_code cfg now)
      { addr := d.addr, data := writeInto buf d.bytes })
  have hh := has_item_of_pop_item_some _ _ hpop
  rcases hco : copy_out item.data 0 (writeInto buf d.bytes) with ⟨buf2, early⟩
  cases early with
  | some len =>
    exact ⟨(len, item.addr), q2, buf2, by simp [recv_from, hh, hpop, hco]⟩
  | none =>
    exact ⟨(item.data.length, item.addr), q2, buf2,
      by simp [recv_from, hh, hpop, hco]⟩

/-! ## Claims -/

/-- C1: the claim requires a queued packet to be returned only once its
release instant has passed, so that with latency 100, zero jitter and zero
loss, a receive at `t = 0` would-blocks. The code behaves otherwise: with one
10-byte packet available from the transport, a conditioned `recv_from` at
`t = 0` already returns the packet's 10 bytes and sender address 7, even
though the packet's computed release instant is 100 > 0 — the read path
checks only queue non-emptiness and pops with no gating on release time. -/
theorem recv_from_delivers_before_release_instant :
    (recv_from ⟨100, 0, 0⟩ true (.ok ⟨7, [1, 2, 3, 4, 5, 6, 7, 8, 9, 10]⟩) 0
        TimeQueue.new (List.replicate 10 0)).1 = .ok (10, 7)
    ∧ release_instant_code ⟨100, 0, 0⟩ 0 = 100 ∧ (0 : Nat) < 100 :=
  ⟨rfl, rfl, by decide⟩

/-- C2: the claim requires an accepted packet to be dropped with probability
`packet_loss` (always enqueued at 0, always dropped at 1). The code never
consults `packet_loss`: `recv_from` is literally independent of the field,
and with `packet_loss = 1` a received packet is still enqueued and delivered
rather than dropped. -/
theorem recv_from_ignores_packet_loss :
    (∀ (latency jitter : Nat) (p p' : ℚ) (lockOk : Bool)
        (tread : Except IOErrorKind Datagram) (now : Instant)
        (q : TimeQueue RecvFrom) (buf : List Nat),
        recv_from ⟨latency, jitter, p⟩ lockOk tread now q buf
          = recv_from ⟨latency, jitter, p'⟩ lockOk tread now q buf)
    ∧ (recv_from ⟨0, 0, 1⟩ true (.ok ⟨3, [5, 5]⟩) 0
        TimeQueue.new [0, 0]).1 = .ok (2, 3) :=
  ⟨fun _ _ _ _ _ _ _ _ _ => rfl, rfl⟩

/-- C3: the claim requires the reported length of a delivered packet of
originally received length L (with capacity C ≥ L) to be exactly L. The code
stores `buf.to_vec()` — the whole receive buffer — and discards the received
count, so a 2-byte datagram received into a 4-byte buffer is delivered with
reported length 4, not 2. -/
theorem delivered_length_is_stored_buffer_length :
    (recv_from ConditionerConfig.default true (.ok ⟨3, [9, 9]⟩) 0
        TimeQueue.new [0, 0, 0, 0]).1 = .ok (4, 3)
    ∧ (4 : Nat) ≠ 2 :=
  ⟨rfl, by decide⟩

/-- C4: the claim requires a conditioned `recv_from` under the default
configuration to report the same length as a raw `recv_from` of the same
packet. For a 2-byte datagram and a 4-byte buffer the raw read reports
length 2 while the conditioned read reports 4; the buffer contents and the
sender address do agree. -/
theorem default_config_differs_from_raw :
    (udpRecvFrom (.ok ⟨3, [9, 9]⟩) [0, 0, 0, 0]).1 = .ok (2, 3)
    ∧ (recv_from ConditionerConfig.default true (.ok ⟨3, [9, 9]⟩) 0
        TimeQueue.new [0, 0, 0, 0]).1 = .ok (4, 3)
    ∧ (recv_from ConditionerConfig.default true (.ok ⟨3, [9, 9]⟩) 0
        TimeQueue.new [0, 0, 0, 0]).2.2
      = (udpRecvFrom (.ok ⟨3, [9, 9]⟩) [0, 0, 0, 0]).2
    ∧ (2 : Nat) ≠ 4 :=
  ⟨rfl, rfl, rfl, by decide⟩

/-- C5 (counterexample): the claim says that for both `recv` and `recv_from`
a failed transport read never prevents delivery of an already-queued packet.
For `recv` it does: with the lock acquired, a failed transport read and a
queue holding one item, `recv` returns would-block and leaves the queue
untouched instead of popping the item. -/
theorem recv_transport_miss_skips_queue_cex :
    (⟨[(0, ⟨3, [9]⟩)]⟩ : TimeQueue RecvFrom).has_item = true
    ∧ recv ConditionerConfig.default true (.error .wouldBlock) 0
        ⟨[(0, ⟨3, [9]⟩)]⟩ [0] = (.error .wouldBlock, ⟨[(0, ⟨3, [9]⟩)]⟩, [0]) :=
  ⟨rfl, rfl⟩

/-- C5 (amended): when the queue lock is acquired, the transport read fails
and the queue holds an item, `recv_from` still pops the earliest item and
returns it to the caller; `recv`, whose queue check sits inside the
successful-transport-read branch, instead returns would-block and leaves the
queue unchanged. -/
theorem transport_miss_recv_from_drains_recv_does_not
    (cfg : ConditionerConfig) (e : IOErrorKind) (now : Instant)
    (q : TimeQueue RecvFrom) (buf : List Nat) (h : q.has_item = true) :
    (∃ item q2 len buf2, q.pop_item = some (item, q2)
      ∧ recv_from cfg true (.error e) now q buf
          = (.ok (len, item.addr), q2, buf2))
    ∧ recv cfg true (.error e) now q buf = (.error .wouldBlock, q, buf) := by
  obtain ⟨⟨item, q2⟩, hpop⟩ := Option.isSome_iff_exists.mp
    (pop_item_isSome_of_has_item q h)
  obtain ⟨len, buf2, heq⟩ :=
    recv_from_transport_fail_pop cfg e now q buf item q2 hpop
  exact ⟨⟨item, q2, len, buf2, hpop, heq⟩, rfl⟩

/-- C5 (witness): the amended statement at a concrete state — one queued item,
lock acquired, transport read failed. -/
theorem transport_miss_witness :
    (∃ item q2 len buf2,
        (⟨[(0, ⟨3, [9]⟩)]⟩ : TimeQueue RecvFrom).pop_item = some (item, q2)
        ∧ recv_from ConditionerConfig.default true (.error .otherError) 0
            ⟨[(0, ⟨3, [9]⟩)]⟩ [0] = (.ok (len, item.addr), q2, buf2))
    ∧ recv ConditionerConfig.default true (.error .otherError) 0
        ⟨[(0, ⟨3, [9]⟩)]⟩ [0]
      = (.error .wouldBlock, ⟨[(0, ⟨3, [9]⟩)]⟩, [0]) :=
  transport_miss_recv_from_drains_recv_does_not ConditionerConfig.default
    .otherError 0 ⟨[(0, ⟨3, [9]⟩)]⟩ [0] rfl

/-- C6: every failing conditioned `recv` or `recv_from` call — lock not
acquired, transport read failed, or no queued packet — returns exactly the
would-block error kind and no other error. -/
theorem conditioned_failures_yield_would_block :
    (∀ (cfg : ConditionerConfig) (lockOk : Bool)
        (tread : Except IOErrorKind Datagram) (now : Instant)
        (q : TimeQueue RecvFrom) (buf : List Nat) (e : IOErrorKind),
        (recv cfg lockOk tread now q buf).1 = .error e → e = .wouldBlock)
    ∧ (∀ (cfg : ConditionerConfig) (lockOk : Bool)
        (tread : Except IOErrorKind Datagram) (now : Instant)
        (q : TimeQueue RecvFrom) (buf : List Nat) (e : IOErrorKind),
        (recv_from cfg lockOk tread now q buf).1 = .error e →
          e = .wouldBlock) := by
  constructor
  · intro cfg lockOk tread now q buf e h
    cases lockOk with
    | false =>
      have h' : (Except.error .wouldBlock : Except IOErrorKind Nat)
          = .error e := h
      exact (Except.error.inj h').symm
    | true =>
      cases tread with
      | error e' =>
        have h' : (Except.error .wouldBlock : Except IOErrorKind Nat)
            = .error e := h
        exact (Except.error.inj h').symm
      | ok d =>
        obtain ⟨len, q2, buf2, heq⟩ := recv_tread_ok cfg now q buf d
        rw [heq] at h
        exact Except.noConfusion
          (show (Except.ok len : Except IOErrorKind Nat) = .error e from h)
  · intro cfg lockOk tread now q buf e h
    cases lockOk with
    | false =>
      have h' : (Except.error .wouldBlock : Except IOErrorKind (Nat × Nat))
          = .error e := h
      exact (Except.error.inj h').symm
    | true =>
      cases tread with
      | error e' =>
        cases hh : q.has_item with
        | false =>
          rw [recv_from_transport_fail_empty cfg e' now q buf hh] at h
          exact (Except.error.inj
            (show (Except.error .wouldBlock : Except IOErrorKind (Nat × Nat))
              = .error e from h)).symm
        | true =>
          obtain ⟨⟨item, q2⟩, hpop⟩ := Option.isSome_iff_exists.mp
            (pop_item_isSome_of_has_item q hh)
          obtain ⟨len, buf2, heq⟩ :=
            recv_from_transport_fail_pop cfg e' now q buf item q2 hpop
          rw [heq] at h
          exact Except.noConfusion
            (show (Except.ok (len, item.addr) : Except IOErrorKind (Nat × Nat))
              = .error e from h)
      | ok d =>
        obtain ⟨r, q2, buf2, heq⟩ := recv_from_tread_ok cfg now q buf d
        rw [heq] at h
        exact Except.noConfusion
          (show (Except.ok r : Except IOErrorKind (Nat × Nat))
            = .error e from h)

/-- C6 (witness): a concrete failing call — lock contention with a non-would-
block transport error pending — yields exactly the would-block kind. -/
theorem conditioned_failures_yield_would_block_witness :
    ∃ e, (recv ConditionerConfig.default false (.error .connectionReset) 0
        TimeQueue.new []).1 = Except.error e ∧ e = IOErrorKind.wouldBlock :=
  ⟨.wouldBlock, rfl,
    conditioned_failures_yield_would_block.1 ConditionerConfig.default false
      (.error .connectionReset) 0 TimeQueue.new [] .wouldBlock rfl⟩

/-- C7: the claim describes the computed release instant as
`now + latency` perturbed by a freshly drawn delta in `[0, jitter]` with a
random sign. The code computes `now + latency` with no jitter term at all:
with `jitter = 50` and the draw `delta = 50 ≤ jitter`, positive sign, the
spec's mechanism yields release instant 50 while the code yields 0. -/
theorem release_instant_ignores_jitter :
    (∀ (config : ConditionerConfig) (now : Instant),
        release_instant_code config now = now + config.latency)
    ∧ release_instant_code ⟨0, 50, 0⟩ 0 = 0
    ∧ compute_release_instant_spec ⟨0, 50, 0⟩ 0 50 true = 50
    ∧ (50 : Nat) ≤ 50
    ∧ (0 : Nat) ≠ 50 :=
  ⟨fun _ _ => rfl, rfl, rfl, by decide, by decide⟩

/-- C8: for any sequence of items added to the delay queue with release
instants `t1 ≤ t2 ≤ … ≤ tn`, repeated pops return the items in non-decreasing
release-instant order, and items with equal release instants are returned in
their insertion order: draining the queue built by those insertions returns
exactly the insertion sequence. -/
theorem queue_pops_in_release_order {α : Type} (l : List (Instant × α))
    (h : List.Pairwise (fun a b : Instant × α => a.1 ≤ b.1) l) :
    TimeQueue.drain (TimeQueue.ofInsertions l) = l := by
  rw [ofInsertions_eq]
  exact drain_sorted l h

/-- C8 (witness): three insertions with instants `1 ≤ 2 ≤ 2` (the last two
tied) pop back in exactly the insertion order. -/
theorem queue_pops_in_release_order_witness :
    List.Pairwise (fun a b : Instant × Nat => a.1 ≤ b.1)
      [(1, 10), (2, 20), (2, 30)]
    ∧ TimeQueue.drain (TimeQueue.ofInsertions [(1, 10), (2, 20), (2, 30)])
      = [(1, 10), (2, 20), (2, 30)] :=
  ⟨by decide, queue_pops_in_release_order [(1, 10), (2, 20), (2, 30)]
    (by decide)⟩

/-- C9: `peek_from` on a conditioned socket bypasses the delay queue: the
queue is returned unmodified, the result and the buffer are exactly those of
a direct transport peek, and the result is independent of the queue's
contents and of the configuration (so no latency, jitter or loss is
applied to a peeked packet, and queued packets are invisible to peeks). -/
theorem peek_from_bypasses_queue :
    ∀ (config config' : ConditionerConfig)
      (tpeek : Except IOErrorKind Datagram) (q q' : TimeQueue RecvFrom)
      (buf : List Nat),
      (peek_from config tpeek q buf).2.1 = q
      ∧ (peek_from config tpeek q buf).1 = (udpRecvFrom tpeek buf).1
      ∧ (peek_from config tpeek q buf).2.2 = (udpRecvFrom tpeek buf).2
      ∧ (peek_from config tpeek q buf).1 = (peek_from config' tpeek q' buf).1 :=
  fun _ _ _ _ _ _ => ⟨rfl, rfl, rfl, rfl⟩

/-- C10: whenever a conditioned `recv` or `recv_from` call returns an error,
the delay queue after the call is exactly the queue before the call: no item
was enqueued and no item was popped on any failing call. -/
theorem failing_calls_preserve_queue :
    (∀ (cfg : ConditionerConfig) (lockOk : Bool)
        (tread : Except IOErrorKind Datagram) (now : Instant)
        (q : TimeQueue RecvFrom) (buf : List Nat) (e : IOErrorKind),
        (recv cfg lockOk tread now q buf).1 = .error e →
        (recv cfg lockOk tread now q buf).2.1 = q)
    ∧ (∀ (cfg : ConditionerConfig) (lockOk : Bool)
        (tread : Except IOErrorKind Datagram) (now : Instant)
        (q : TimeQueue RecvFrom) (buf : List Nat) (e : IOErrorKind),
        (recv_from cfg lockOk tread now q buf).1 = .error e →
        (recv_from cfg lockOk tread now q buf).2.1 = q) := by
  constructor
  · intro cfg lockOk tread now q buf e h
    cases lockOk with
    | false => rfl
    | true =>
      cases tread with
      | error e' => rfl
      | ok d =>
        obtain ⟨len, q2, buf2, heq⟩ := recv_tread_ok cfg now q buf d
        rw [heq] at h
        exact Except.noConfusion
          (show (Except.ok len : Except IOErrorKind Nat) = .error e from h)
  · intro cfg lockOk tread now q buf e h
    cases lockOk with
    | false => rfl
    | true =>
      cases tread with
      | error e' =>
        cases hh : q.has_item with
        | false =>
          rw [recv_from_transport_fail_empty cfg e' now q buf hh]
        | true =>
          obtain ⟨⟨item, q2⟩, hpop⟩ := Option.isSome_iff_exists.mp
            (pop_item_isSome_of_has_item q hh)
          obtain ⟨len, buf2, heq⟩ :=
            recv_from_transport_fail_pop cfg e' now q buf item q2 hpop
          rw [heq] at h
          exact Except.noConfusion
            (show (Except.ok (len, item.addr) : Except IOErrorKind (Nat × Nat))
              = .error e from h)
      | ok d =>
        obtain ⟨r, q2, buf2, heq⟩ := recv_from_tread_ok cfg now q buf d
        rw [heq] at h
        exact Except.noConfusion
          (show (Except.ok r : Except IOErrorKind (Nat × Nat))
            = .error e from h)

/-- C10 (witness): two concrete failing calls — a `recv` under lock
contention with a non-empty queue, and a `recv_from` with a failed transport
read and an empty queue — both leave the queue exactly as it was. -/
theorem failing_calls_preserve_queue_witness :
    (recv ConditionerConfig.default false (.error .otherError) 0
        (⟨[(5, ⟨1, [2]⟩)]⟩ : TimeQueue RecvFrom) []).2.1 = ⟨[(5, ⟨1, [2]⟩)]⟩
    ∧ (recv_from ConditionerConfig.default true (.error .otherError) 0
        TimeQueue.new []).2.1 = TimeQueue.new :=
  ⟨failing_calls_preserve_queue.1 ConditionerConfig.default false
      (.error .otherError) 0 ⟨[(5, ⟨1, [2]⟩)]⟩ [] .wouldBlock rfl,
   failing_calls_preserve_queue.2 ConditionerConfig.default true
      (.error .otherError) 0 TimeQueue.new [] .wouldBlock rfl⟩

end LinkConditioner
